import Mathlib

/-!
Shallow embedding of the batch-orchestration and session-state logic of
`src/main.py` (OneSIP OCR, a Streamlit page that submits URL or uploaded-PDF
sources to an external OCR service).

The embedding covers: session-state initialization (lines 65-70), the
Clear handler (lines 95-98), input validation (lines 101-105) and the
per-source processing loop of the Process handler (lines 107-145),
including the upload size check, document-descriptor construction,
the try/except around the OCR call, response-shape handling and the
result/preview appends.  The external OCR service is an oracle
`Document → OcrOutcome`; side effects (warnings, validation errors,
submissions, the rate-limit sleep) are recorded as an event trace.
-/

set_option autoImplicit false

namespace OnesipOcr

/-- `MAX_UPLOAD_MB = 20` (line 18 of `src/main.py`). -/
def MAX_UPLOAD_MB : Nat := 20

/-- One page of an OCR response; the code only reads its `markdown` field
(line 140). -/
structure Page where
  markdown : String
deriving DecidableEq

/-- The three response shapes distinguished at line 139 of `src/main.py` by
runtime introspection (`hasattr(ocr_response, "pages")`, then
`isinstance(ocr_response, list)`), modelled as a tagged union. -/
inductive OcrResponse where
  | withPages (pages : List Page)
  | bareList (pages : List Page)
  | other
deriving DecidableEq

/-- Line 139: `pages = ocr_response.pages if hasattr(ocr_response, "pages")
else (ocr_response if isinstance(ocr_response, list) else [])`. -/
def pagesOf : OcrResponse → List Page
  | .withPages ps => ps
  | .bareList ps => ps
  | .other => []

/-- The join at line 140: `"\n\n".join(page.markdown for page in pages)`. -/
def joinPages (ps : List Page) : String :=
  String.intercalate "\n\n" (ps.map Page.markdown)

/-- Line 140: `result_text = "\n\n".join(...) or "No result found."`;
Python `or` substitutes the placeholder exactly when the join is the empty
string. -/
def result_text (r : OcrResponse) : String :=
  let s := joinPages (pagesOf r)
  if s = "" then "No result found." else s

/-- Standard base64 alphabet character (modelling `base64.b64encode`,
line 121, an external library call). -/
def b64Char (n : Nat) : Char :=
  "ABCDEFGHIJKLMNOPQRSTUVWXYZabcdefghijklmnopqrstuvwxyz0123456789+/".toList.getD n 'A'

/-- RFC 4648 base64 of a byte list, chunked three bytes at a time. -/
def b64Chunks : List Nat → List Char
  | a :: b :: c :: rest =>
      let n := (a % 256) * 65536 + (b % 256) * 256 + (c % 256)
      b64Char (n / 262144) :: b64Char (n / 4096 % 64) :: b64Char (n / 64 % 64) ::
        b64Char (n % 64) :: b64Chunks rest
  | [a, b] =>
      let n := (a % 256) * 65536 + (b % 256) * 256
      [b64Char (n / 262144), b64Char (n / 4096 % 64), b64Char (n / 64 % 64), '=']
  | [a] =>
      let n := (a % 256) * 65536
      [b64Char (n / 262144), b64Char (n / 4096 % 64), '=', '=']
  | [] => []

/-- `base64.b64encode(file_bytes).decode("utf-8")` (line 121). -/
def base64Encode (bytes : List Nat) : String :=
  ⟨b64Chunks bytes⟩

/-- Python `str.strip()` whitespace set: space, tab, newline, carriage
return, vertical tab, form feed (ASCII fragment). -/
def pySpace (c : Char) : Bool :=
  c = ' ' || c = '\t' || c = '\n' || c = '\r' || c = '\x0b' || c = '\x0c'

/-- Python `str.strip()` with no argument: drop leading and trailing
whitespace (used at lines 102, 128, 129). -/
def strip (s : String) : String :=
  ⟨((s.data.dropWhile pySpace).reverse.dropWhile pySpace).reverse⟩

/-- Python `str.split("\n")` on a character list: every newline separates
two (possibly empty) fields, and the empty text yields one empty field. -/
def splitNewlineChars : List Char → List String
  | [] => [""]
  | c :: rest =>
      match splitNewlineChars rest with
      | [] => []
      | hd :: tl =>
          if c = '\n' then "" :: hd :: tl else (⟨c :: hd.data⟩ : String) :: tl

/-- Python `input_url.split("\n")` (line 111): no filtering of empty or
whitespace-only fields. -/
def splitNewline (s : String) : List String :=
  splitNewlineChars s.data

/-- An uploaded blob: `source.name` and the bytes returned by
`source.read()` (lines 116, 119). -/
structure UploadedFile where
  name : String
  file_bytes : List Nat
deriving DecidableEq

/-- A Source: one line of the URL text area, or one uploaded file. -/
inductive Source where
  | url (s : String)
  | upload (f : UploadedFile)
deriving DecidableEq

/-- The document descriptor sent to the OCR service
(lines 122-125 and 128). -/
structure Document where
  type : String
  document_url : String
deriving DecidableEq

/-- Outcome of the external call `client.ocr.process(...)` (line 133):
either a response object or a raised exception carrying a message. -/
inductive OcrOutcome where
  | success (resp : OcrResponse)
  | submitError (e : String)
deriving DecidableEq

/-- Observable side effects of the handlers, in program order:
`st.error` on validation (lines 103, 105), `st.warning` on an oversized
upload (line 119), the OCR submission itself (line 133), and the
rate-limit `time.sleep(1)` (line 138). -/
inductive Event where
  | validationError (msg : String)
  | warning (msg : String)
  | submit (doc : Document)
  | sleep
deriving DecidableEq

/-- `true` exactly for `Event.validationError _`. -/
def isValidationError : Event → Bool
  | .validationError _ => true
  | _ => false

/-- The session state: `st.session_state["ocr_result"]`,
`st.session_state["preview_src"]`, `st.session_state["reset_uploader"]`. -/
structure SessionState where
  ocr_result : List String
  preview_src : List String
  reset_uploader : Nat
deriving DecidableEq

/-- Lines 65-70: each key initialized when absent (`[]`, `[]`, `0`). -/
def initState : SessionState :=
  { ocr_result := [], preview_src := [], reset_uploader := 0 }

/-- Lines 95-98: Clear empties both sequences and increments the uploader
key. -/
def clear_clicked (st : SessionState) : SessionState :=
  { ocr_result := [], preview_src := [],
    reset_uploader := st.reset_uploader + 1 }

/-- Line 117: `file_size_mb = len(file_bytes) / (1024 * 1024)`.  Python
float division by `2 ^ 20` is exact for all byte counts below `2 ^ 53`, so
the rational model agrees with the code on the comparison at line 118. -/
def file_size_mb (nbytes : Nat) : ℚ :=
  (nbytes : ℚ) / (1024 * 1024)

/-- Line 118: the skip condition `file_size_mb > MAX_UPLOAD_MB`.  URL
sources are never size-checked. -/
def skipCheck : Source → Bool
  | .url _ => false
  | .upload f => decide (file_size_mb f.file_bytes.length > (MAX_UPLOAD_MB : ℚ))

/-- Line 119: the warning text for a skipped oversized upload. -/
def skipMsg : Source → String
  | .url _ => ""
  | .upload f =>
      f.name ++ " exceeds the max upload size of " ++ toString MAX_UPLOAD_MB
        ++ " MB. Skipped."

/-- The document descriptor built for a source: line 128 for URLs
(`source.strip()`), lines 122-125 for uploads (inline base64 payload). -/
def docOf : Source → Document
  | .url s => { type := "document_url", document_url := strip s }
  | .upload f =>
      { type := "document_url",
        document_url := "data:application/pdf;base64," ++ base64Encode f.file_bytes }

/-- The preview reference paired with a source: line 129 for URLs,
line 126 for uploads (the same inline payload string). -/
def previewOf : Source → String
  | .url s => strip s
  | .upload f => "data:application/pdf;base64," ++ base64Encode f.file_bytes

/-- The try/except of lines 132-142: submit the descriptor; on success
sleep one second (line 138) and extract the text (lines 139-140); on an
exception produce `"Error extracting result: <e>"` (line 142).  Returns the
events of the attempt and the `result_text` that gets appended. -/
def tryOcr (ocr : Document → OcrOutcome) (doc : Document) : List Event × String :=
  match ocr doc with
  | .success resp => ([.submit doc, .sleep], result_text resp)
  | .submitError e => ([.submit doc], "Error extracting result: " ++ e)

/-- One iteration of the loop at lines 113-145: an oversized upload emits a
warning and `continue`s (appending nothing); otherwise the source's
descriptor is submitted and the (text, preview) pair is appended. -/
def sourceStep (ocr : Document → OcrOutcome) (s : Source) :
    List Event × Option (String × String) :=
  if skipCheck s then
    ([.warning (skipMsg s)], none)
  else
    ((tryOcr ocr (docOf s)).1, some ((tryOcr ocr (docOf s)).2, previewOf s))

/-- The whole loop over `sources` (lines 113-145): returns the event trace,
the `ocr_result` list and the `preview_src` list accumulated by the
appends at lines 144-145, in input order. -/
def runLoop (ocr : Document → OcrOutcome) :
    List Source → List Event × List String × List String
  | [] => ([], [], [])
  | s :: rest =>
      let step := sourceStep ocr s
      let tail := runLoop ocr rest
      match step.2 with
      | some tp => (step.1 ++ tail.1, tp.1 :: tail.2.1, tp.2 :: tail.2.2)
      | none => (step.1 ++ tail.1, tail.2.1, tail.2.2)

/-- The two input modes of the radio button: the URL text area, or the
uploaded-file list. -/
inductive BatchInput where
  | urlInput (input_url : String)
  | uploadInput (uploaded_files : List UploadedFile)

/-- Line 111: `sources = input_url.split("\n") if source_type == "URL"
else uploaded_files`. -/
def batchSources : BatchInput → List Source
  | .urlInput input_url => (splitNewline input_url).map Source.url
  | .uploadInput files => files.map Source.upload

/-- Lines 102-105: URL mode requires `input_url.strip()` nonempty; upload
mode requires a nonempty file list. -/
def validInput : BatchInput → Bool
  | .urlInput u => if strip u = "" then false else true
  | .uploadInput files => if files = [] then false else true

/-- The `st.error` message of the branch taken at lines 102-105. -/
def validationMsg : BatchInput → Event
  | .urlInput _ => .validationError "Please enter at least one valid PDF URL."
  | .uploadInput _ => .validationError "Please upload at least one PDF file."

/-- The Process handler (lines 101-145): on invalid input surface the error
and leave the state untouched; otherwise reset `ocr_result` and
`preview_src` (lines 108-109) and run the loop, whose appends form the new
state. -/
def process_clicked (ocr : Document → OcrOutcome) (st : SessionState)
    (inp : BatchInput) : SessionState × List Event :=
  if validInput inp then
    let out := runLoop ocr (batchSources inp)
    ({ ocr_result := out.2.1, preview_src := out.2.2,
       reset_uploader := st.reset_uploader }, out.1)
  else
    (st, [validationMsg inp])

/-- The text appended for a non-skipped source: `result_text` of the
response on success, the formatted error string on an exception. -/
def itemText (ocr : Document → OcrOutcome) (s : Source) : String :=
  (tryOcr ocr (docOf s)).2

/-- Session states reachable from initialization by any interleaving of
Process (with any oracle and input) and Clear actions. -/
inductive Reachable : SessionState → Prop where
  | init : Reachable initState
  | process (ocr : Document → OcrOutcome) (inp : BatchInput)
      {st : SessionState} : Reachable st →
      Reachable (process_clicked ocr st inp).1
  | clear {st : SessionState} : Reachable st → Reachable (clear_clicked st)

/-! ### Helper lemmas about the loop -/

theorem runLoop_nil (ocr : Document → OcrOutcome) : runLoop ocr [] = ([], [], []) :=
  rfl

theorem runLoop_cons (ocr : Document → OcrOutcome) (s : Source) (rest : List Source) :
    runLoop ocr (s :: rest) =
      match (sourceStep ocr s).2 with
      | some tp =>
          ((sourceStep ocr s).1 ++ (runLoop ocr rest).1,
           tp.1 :: (runLoop ocr rest).2.1, tp.2 :: (runLoop ocr rest).2.2)
      | none =>
          ((sourceStep ocr s).1 ++ (runLoop ocr rest).1,
           (runLoop ocr rest).2.1, (runLoop ocr rest).2.2) := by
  cases h : (sourceStep ocr s).2 <;> simp [runLoop, h]

theorem runLoop_append (ocr : Document → OcrOutcome) (l1 l2 : List Source) :
    runLoop ocr (l1 ++ l2) =
      ((runLoop ocr l1).1 ++ (runLoop ocr l2).1,
       (runLoop ocr l1).2.1 ++ (runLoop ocr l2).2.1,
       (runLoop ocr l1).2.2 ++ (runLoop ocr l2).2.2) := by
  induction l1 with
  | nil => simp [runLoop]
  | cons s rest ih =>
      rw [List.cons_append, runLoop_cons, runLoop_cons, ih]
      cases h : (sourceStep ocr s).2 <;> simp

theorem runLoop_results (ocr : Document → OcrOutcome) (srcs : List Source) :
    (runLoop ocr srcs).2.1 =
      (srcs.filterMap fun s => (sourceStep ocr s).2).map Prod.fst := by
  induction srcs with
  | nil => simp [runLoop]
  | cons s rest ih =>
      rw [runLoop_cons]
      cases h : (sourceStep ocr s).2 <;> simp [List.filterMap_cons, h, ih]

theorem runLoop_previews (ocr : Document → OcrOutcome) (srcs : List Source) :
    (runLoop ocr srcs).2.2 =
      (srcs.filterMap fun s => (sourceStep ocr s).2).map Prod.snd := by
  induction srcs with
  | nil => simp [runLoop]
  | cons s rest ih =>
      rw [runLoop_cons]
      cases h : (sourceStep ocr s).2 <;> simp [List.filterMap_cons, h, ih]

theorem runLoop_length_eq (ocr : Document → OcrOutcome) (srcs : List Source) :
    (runLoop ocr srcs).2.1.length = (runLoop ocr srcs).2.2.length := by
  rw [runLoop_results, runLoop_previews, List.length_map, List.length_map]

theorem sourceStep_not_skipped (ocr : Document → OcrOutcome) (s : Source)
    (h : skipCheck s = false) :
    sourceStep ocr s = ((tryOcr ocr (docOf s)).1, some (itemText ocr s, previewOf s)) := by
  simp [sourceStep, h, itemText]

theorem runLoop_no_skip (ocr : Document → OcrOutcome) (srcs : List Source)
    (h : ∀ s ∈ srcs, skipCheck s = false) :
    (runLoop ocr srcs).2.1 = srcs.map (itemText ocr) ∧
    (runLoop ocr srcs).2.2 = srcs.map previewOf := by
  induction srcs with
  | nil => simp [runLoop]
  | cons s rest ih =>
      have hs := h s (List.mem_cons_self s rest)
      have hrest := ih fun t ht => h t (List.mem_cons_of_mem s ht)
      rw [runLoop_cons, sourceStep_not_skipped ocr s hs]
      simp [hrest.1, hrest.2]

theorem submit_mem_runLoop (ocr : Document → OcrOutcome) (srcs : List Source)
    (s : Source) (hs : s ∈ srcs) (hk : skipCheck s = false) :
    Event.submit (docOf s) ∈ (runLoop ocr srcs).1 := by
  induction srcs with
  | nil => cases hs
  | cons t rest ih =>
      rw [runLoop_cons]
      rcases List.mem_cons.mp hs with rfl | hmem
      · have hstep : Event.submit (docOf s) ∈ (sourceStep ocr s).1 := by
          rw [sourceStep_not_skipped ocr s hk]
          unfold tryOcr
          cases ocr (docOf s) <;> simp
        cases h : (sourceStep ocr s).2 <;> simp [List.mem_append, hstep]
      · have htail := ih hmem
        cases h : (sourceStep ocr t).2 <;> simp [List.mem_append, htail]

theorem process_clicked_valid (ocr : Document → OcrOutcome) (st : SessionState)
    (inp : BatchInput) (hv : validInput inp = true) :
    process_clicked ocr st inp =
      ({ ocr_result := (runLoop ocr (batchSources inp)).2.1,
         preview_src := (runLoop ocr (batchSources inp)).2.2,
         reset_uploader := st.reset_uploader },
       (runLoop ocr (batchSources inp)).1) := by
  simp [process_clicked, hv]

theorem process_clicked_invalid (ocr : Document → OcrOutcome) (st : SessionState)
    (inp : BatchInput) (hv : validInput inp = false) :
    process_clicked ocr st inp = (st, [validationMsg inp]) := by
  simp [process_clicked, hv]

/-! ### Concrete oracles and inputs used to instantiate the theorems -/

/-- A fixed successful response with one page of text. -/
def okResp : OcrResponse := .withPages [{ markdown := "hello" }]

/-- An oracle for which every submission succeeds. -/
def ocrOk : Document → OcrOutcome := fun _ => .success okResp

/-- An oracle that raises exactly on the document whose URL is `"b"`. -/
def ocrBoomB : Document → OcrOutcome := fun d =>
  if d.document_url = "b" then .submitError "boom" else .success okResp

/-- An oracle for which every submission raises. -/
def ocrDown : Document → OcrOutcome := fun _ => .submitError "down"

/-- An upload one byte over the 20 MiB limit. -/
def bigFile : UploadedFile :=
  { name := "big.pdf", file_bytes := List.replicate 20971521 0 }

/-- An upload of exactly 20 MiB. -/
def exactFile : UploadedFile :=
  { name := "exact.pdf", file_bytes := List.replicate 20971520 0 }

/-! ### Claim theorems -/

/-- C1: per-item failure isolation.  For every batch position whose source
is not skipped by the size check, if the OCR call raises with message `e`,
the loop appends exactly the record `"Error extracting result: " ++ e` at
that position, and the records of the sources before and after it are
exactly what they would be on their own — the batch completes (the loop is
a total function) and the remaining sources are still processed. -/
theorem C1_failure_isolation (ocr : Document → OcrOutcome)
    (pre post : List Source) (s : Source) (e : String)
    (hs : skipCheck s = false) (he : ocr (docOf s) = .submitError e) :
    (runLoop ocr (pre ++ s :: post)).2.1 =
      (runLoop ocr pre).2.1 ++
        ("Error extracting result: " ++ e) :: (runLoop ocr post).2.1 := by
  have hcons : (runLoop ocr (s :: post)).2.1 =
      ("Error extracting result: " ++ e) :: (runLoop ocr post).2.1 := by
    rw [runLoop_cons, sourceStep_not_skipped ocr s hs]
    simp [itemText, tryOcr, he]
  rw [runLoop_append]
  simp [hcons]

/-- C1 witness: a 3-item URL batch where the service raises only on item 2
yields item 2's error record between items 1 and 3's normal records. -/
theorem C1_failure_isolation_witness :
    (runLoop ocrBoomB ([Source.url "a"] ++ Source.url "b" :: [Source.url "c"])).2.1 =
      (runLoop ocrBoomB [Source.url "a"]).2.1 ++
        ("Error extracting result: " ++ "boom") ::
          (runLoop ocrBoomB [Source.url "c"]).2.1 :=
  C1_failure_isolation ocrBoomB [Source.url "a"] [Source.url "c"]
    (Source.url "b") "boom" (by decide) (by decide)

/-- C2: alignment invariant.  Every session state reachable through
initialization, Process (with any oracle and input) and Clear has
`ocr_result` and `preview_src` of equal length; moreover the two sequences
produced by any loop run are the componentwise projections of the one list
of (text, preview) pairs produced per non-skipped source, so the record and
preview at each index come from the same source. -/
theorem C2_alignment (st : SessionState) (ocr : Document → OcrOutcome)
    (srcs : List Source) (h : Reachable st) :
    st.ocr_result.length = st.preview_src.length ∧
    (runLoop ocr srcs).2.1 =
      (srcs.filterMap fun s => (sourceStep ocr s).2).map Prod.fst ∧
    (runLoop ocr srcs).2.2 =
      (srcs.filterMap fun s => (sourceStep ocr s).2).map Prod.snd := by
  refine ⟨?_, runLoop_results ocr srcs, runLoop_previews ocr srcs⟩
  induction h with
  | init => rfl
  | process ocr' inp h ih =>
      by_cases hv : validInput inp = true
      · rw [process_clicked_valid _ _ _ hv]
        exact runLoop_length_eq _ _
      · rw [process_clicked_invalid _ _ _ (Bool.not_eq_true _ ▸ hv)]
        exact ih
  | clear h ih => rfl

/-- C2 witness: the invariant at the initial state. -/
theorem C2_alignment_witness :
    initState.ocr_result.length = initState.preview_src.length :=
  (C2_alignment initState ocrOk [] Reachable.init).1

/-- C3: for a non-empty batch with no oversized item, the output has the
same length as the input and the record at index `i` is the result of
processing the source at index `i` (the output is the input mapped in
order through per-item processing). -/
theorem C3_length_order (ocr : Document → OcrOutcome) (srcs : List Source)
    (_hne : srcs ≠ []) (hsz : ∀ s ∈ srcs, skipCheck s = false) :
    (runLoop ocr srcs).2.1.length = srcs.length ∧
    (runLoop ocr srcs).2.1 = srcs.map (itemText ocr) := by
  have h := (runLoop_no_skip ocr srcs hsz).1
  exact ⟨by rw [h, List.length_map], h⟩

/-- C3 witness: a concrete 2-item URL batch. -/
theorem C3_length_order_witness :
    (runLoop ocrOk [Source.url "a", Source.url "c"]).2.1.length = 2 :=
  (C3_length_order ocrOk [Source.url "a", Source.url "c"]
    (by decide) (by decide)).1

/-- C4: Process replaces, never appends.  On any validated input the
resulting state carries exactly the new batch's records and previews
(independent of the prior lists); processing the same single-line URL
twice in a row leaves a length-1 state. -/
theorem C4_replace (ocr : Document → OcrOutcome) (st : SessionState)
    (inp : BatchInput) (u : String) (hv : validInput inp = true)
    (hu : strip u ≠ "") (hsp : splitNewline u = [u]) :
    (process_clicked ocr st inp).1.ocr_result =
      (runLoop ocr (batchSources inp)).2.1 ∧
    (process_clicked ocr st inp).1.preview_src =
      (runLoop ocr (batchSources inp)).2.2 ∧
    ((process_clicked ocr (process_clicked ocr st (.urlInput u)).1
        (.urlInput u)).1).ocr_result.length = 1 := by
  have hvu : validInput (BatchInput.urlInput u) = true := by
    simp [validInput, hu]
  refine ⟨?_, ?_, ?_⟩
  · rw [process_clicked_valid _ _ _ hv]
  · rw [process_clicked_valid _ _ _ hv]
  · rw [process_clicked_valid _ _ _ hvu]
    have : batchSources (BatchInput.urlInput u) = [Source.url u] := by
      simp [batchSources, hsp]
    rw [this, runLoop_cons, sourceStep_not_skipped ocr (Source.url u) rfl]
    simp [runLoop]

/-- C4 witness: a single URL processed twice ends at length 1. -/
theorem C4_replace_witness :
    ((process_clicked ocrOk (process_clicked ocrOk initState
        (.urlInput "a")).1 (.urlInput "a")).1).ocr_result.length = 1 :=
  (C4_replace ocrOk initState (.urlInput "a") "a"
    (by decide) (by decide) (by decide)).2.2

/-- C5: oversized-upload skipping.  An upload caught by the size check
produces exactly one warning event, is never submitted, and appends nothing
to either sequence; a batch of one URL plus one oversized upload yields
output sequences of length 1 with the skip warning in the trace. -/
theorem C5_oversized_skip (ocr : Document → OcrOutcome) (f : UploadedFile)
    (u : String) (h : skipCheck (Source.upload f) = true) :
    sourceStep ocr (Source.upload f) =
      ([.warning (skipMsg (Source.upload f))], none) ∧
    (runLoop ocr [Source.url u, Source.upload f]).2.1.length = 1 ∧
    (runLoop ocr [Source.url u, Source.upload f]).2.2.length = 1 ∧
    Event.warning (skipMsg (Source.upload f)) ∈
      (runLoop ocr [Source.url u, Source.upload f]).1 := by
  have hstep : sourceStep ocr (Source.upload f) =
      ([.warning (skipMsg (Source.upload f))], none) := by
    simp [sourceStep, h]
  have hrest : runLoop ocr [Source.upload f] =
      ([.warning (skipMsg (Source.upload f))], [], []) := by
    rw [runLoop_cons, hstep]
    rfl
  have hall : runLoop ocr [Source.url u, Source.upload f] =
      ((tryOcr ocr (docOf (Source.url u))).1 ++
         [.warning (skipMsg (Source.upload f))],
       [itemText ocr (Source.url u)], [previewOf (Source.url u)]) := by
    rw [show [Source.url u, Source.upload f] =
          Source.url u :: [Source.upload f] from rfl,
       runLoop_cons, sourceStep_not_skipped ocr (Source.url u) rfl, hrest]
  refine ⟨hstep, ?_, ?_, ?_⟩
  · rw [hall]
    rfl
  · rw [hall]
    rfl
  · rw [hall]
    simp

/-- C5 witness: a 20 MiB + 1 byte upload next to one URL source. -/
theorem C5_oversized_skip_witness :
    Event.warning (skipMsg (Source.upload bigFile)) ∈
      (runLoop ocrOk [Source.url "a", Source.upload bigFile]).1 :=
  (C5_oversized_skip ocrOk bigFile "a" (by
    simp only [skipCheck, bigFile, List.length_replicate, decide_eq_true_eq,
      file_size_mb, MAX_UPLOAD_MB]
    norm_num)).2.2.2

/-- C6: empty-input validation atomicity.  On an invalid input (blank URL
text or no files) the Process handler leaves the state exactly as it was,
all emitted events are validation errors (so no submission and no loop
iteration happens), and processing an empty batch right after a Clear
leaves both sequences empty. -/
theorem C6_empty_validation (ocr : Document → OcrOutcome) (st : SessionState)
    (inp : BatchInput) (hv : validInput inp = false) :
    (process_clicked ocr st inp).1 = st ∧
    (process_clicked ocr st inp).2.all isValidationError = true ∧
    (process_clicked ocr (clear_clicked st) inp).1.ocr_result = [] ∧
    (process_clicked ocr (clear_clicked st) inp).1.preview_src = [] := by
  rw [process_clicked_invalid _ _ _ hv, process_clicked_invalid _ _ _ hv]
  refine ⟨rfl, ?_, rfl, rfl⟩
  cases inp <;> rfl

/-- C6 witness: whitespace-only URL text after a Clear. -/
theorem C6_empty_validation_witness :
    (process_clicked ocrOk (clear_clicked initState)
      (BatchInput.urlInput " \n ")).1.ocr_result = [] :=
  (C6_empty_validation ocrOk initState (BatchInput.urlInput " \n ")
    (by decide)).2.2.1

/-- C7: response-shape tolerance and placeholder.  The page sequence is the
`pages` attribute, the bare sequence itself, or empty; whenever the
blank-line join of the page texts is empty the item text is the literal
`"No result found."`, otherwise it is exactly that join. -/
theorem C7_response_shapes (r r' : OcrResponse) (ps : List Page)
    (h1 : joinPages (pagesOf r) = "") (h2 : joinPages (pagesOf r') ≠ "") :
    result_text r = "No result found." ∧
    result_text r' = joinPages (pagesOf r') ∧
    pagesOf (OcrResponse.withPages ps) = ps ∧
    pagesOf (OcrResponse.bareList ps) = ps ∧
    pagesOf OcrResponse.other = [] := by
  refine ⟨?_, ?_, rfl, rfl, rfl⟩
  · simp [result_text, h1]
  · simp [result_text, h2]

/-- C7 witness: the unrecognized shape yields the placeholder and a
one-page response yields its own text. -/
theorem C7_response_shapes_witness :
    result_text OcrResponse.other = "No result found." :=
  (C7_response_shapes OcrResponse.other
    (OcrResponse.withPages [{ markdown := "hi" }]) [] rfl (by decide)).1

/-- C8 counterexample: the claim says a delay step follows every submitted
item whether it succeeds or fails, but when the submission raises, the
`time.sleep(1)` inside the try block is skipped: with an always-raising
oracle the trace of a one-item batch contains the submission and no sleep
event. -/
theorem C8_counterexample :
    Event.submit (docOf (Source.url "u")) ∈
      (runLoop ocrDown [Source.url "u"]).1 ∧
    Event.sleep ∉ (runLoop ocrDown [Source.url "u"]).1 := by
  decide

/-- C8 (amended): the delay step occurs after an item exactly when its OCR
submission call returns successfully (the sleep sits between that item's
submission and the next source's events); when the submission raises, the
item contributes its submission event and error record without a sleep. -/
theorem C8_amended_delay (ocr : Document → OcrOutcome) (s s' : Source)
    (rest : List Source) (r : OcrResponse) (e : String)
    (hs : skipCheck s = false) (hs' : skipCheck s' = false)
    (ho : ocr (docOf s) = .success r) (he : ocr (docOf s') = .submitError e) :
    (runLoop ocr (s :: rest)).1 =
      Event.submit (docOf s) :: Event.sleep :: (runLoop ocr rest).1 ∧
    (runLoop ocr (s' :: rest)).1 =
      Event.submit (docOf s') :: (runLoop ocr rest).1 := by
  constructor
  · rw [runLoop_cons, sourceStep_not_skipped ocr s hs]
    simp [tryOcr, ho]
  · rw [runLoop_cons, sourceStep_not_skipped ocr s' hs']
    simp [tryOcr, he]

/-- C8 witness: one succeeding URL and one raising URL. -/
theorem C8_amended_delay_witness :
    (runLoop ocrBoomB [Source.url "a"]).1 =
      Event.submit (docOf (Source.url "a")) :: Event.sleep ::
        (runLoop ocrBoomB []).1 :=
  (C8_amended_delay ocrBoomB (Source.url "a") (Source.url "b") [] okResp
    "boom" rfl rfl (by decide) (by decide)).1

/-- C9: strict size boundary.  An upload is skipped exactly when its byte
length strictly exceeds `MAX_UPLOAD_MB * 2 ^ 20` (the division by
`1024 * 1024` followed by `>` is equivalent to that strict comparison), and
an upload of exactly `MAX_UPLOAD_MB * 2 ^ 20` bytes is processed, not
skipped. -/
theorem C9_size_boundary (f g : UploadedFile) (ocr : Document → OcrOutcome)
    (hg : g.file_bytes.length = MAX_UPLOAD_MB * 1048576) :
    (skipCheck (Source.upload f) = true ↔
      MAX_UPLOAD_MB * 1048576 < f.file_bytes.length) ∧
    skipCheck (Source.upload g) = false ∧
    (sourceStep ocr (Source.upload g)).2 =
      some (itemText ocr (Source.upload g), previewOf (Source.upload g)) := by
  have key : ∀ n : Nat, ((MAX_UPLOAD_MB : ℚ) < file_size_mb n ↔
      MAX_UPLOAD_MB * 1048576 < n) := by
    intro n
    simp only [file_size_mb, MAX_UPLOAD_MB]
    rw [lt_div_iff₀ (by norm_num : (0:ℚ) < 1024 * 1024)]
    norm_cast
  have hg' : skipCheck (Source.upload g) = false := by
    simp only [skipCheck]
    exact decide_eq_false fun hc => by
      rw [show (file_size_mb g.file_bytes.length > (MAX_UPLOAD_MB : ℚ)) =
            ((MAX_UPLOAD_MB : ℚ) < file_size_mb g.file_bytes.length) from rfl,
          key, hg] at hc
      exact lt_irrefl _ hc
  refine ⟨?_, hg', ?_⟩
  · simp only [skipCheck, decide_eq_true_eq]
    exact key _
  · rw [sourceStep_not_skipped ocr _ hg']

/-- C9 witness: an upload of exactly 20 MiB is not skipped. -/
theorem C9_size_boundary_witness :
    skipCheck (Source.upload exactFile) = false :=
  (C9_size_boundary bigFile exactFile ocrOk (by
    simp only [exactFile, List.length_replicate, MAX_UPLOAD_MB])).2.1

/-- C10: blank-line URL sources.  In URL mode with non-blank overall text,
the batch is the newline-split of the text with no filtering: the output
record list is the per-line results in order (so its length is the number
of lines, blank lines included), the previews are the stripped lines, and
every line — including empty ones — is submitted as its stripped document
URL. -/
theorem C10_blank_lines (ocr : Document → OcrOutcome) (st : SessionState)
    (u line : String) (hu : strip u ≠ "") (hline : line ∈ splitNewline u) :
    (process_clicked ocr st (.urlInput u)).1.ocr_result =
      (splitNewline u).map (fun l => itemText ocr (Source.url l)) ∧
    (process_clicked ocr st (.urlInput u)).1.preview_src =
      (splitNewline u).map (fun l => strip l) ∧
    (process_clicked ocr st (.urlInput u)).1.ocr_result.length =
      (splitNewline u).length ∧
    Event.submit { type := "document_url", document_url := strip line } ∈
      (process_clicked ocr st (.urlInput u)).2 := by
  have hv : validInput (BatchInput.urlInput u) = true := by
    simp [validInput, hu]
  rw [process_clicked_valid _ _ _ hv]
  have hns : ∀ s ∈ batchSources (BatchInput.urlInput u), skipCheck s = false := by
    intro s hsrc
    simp only [batchSources, List.mem_map] at hsrc
    obtain ⟨l, _, rfl⟩ := hsrc
    rfl
  have hloop := runLoop_no_skip ocr (batchSources (BatchInput.urlInput u)) hns
  refine ⟨?_, ?_, ?_, ?_⟩
  · rw [hloop.1]
    simp [batchSources, List.map_map, Function.comp]
  · rw [hloop.2]
    simp [batchSources, List.map_map, Function.comp, previewOf]
  · rw [hloop.1]
    simp [batchSources]
  · exact submit_mem_runLoop ocr _ (Source.url line)
      (show Source.url line ∈ (splitNewline u).map Source.url from
        List.mem_map_of_mem _ hline) rfl

/-- C10 witness: the text `"a\n\nb"` has an empty middle line that is still
submitted as a (stripped, empty) document URL. -/
theorem C10_blank_lines_witness :
    Event.submit { type := "document_url", document_url := strip "" } ∈
      (process_clicked ocrOk initState (BatchInput.urlInput "a\n\nb")).2 :=
  (C10_blank_lines ocrOk initState "a\n\nb" "" (by decide) (by decide)).2.2.2

end OnesipOcr
